import Mathlib

/-!
Shallow embedding of the seat-locking and booking-confirmation core of the
repository, and theorems checking the specification's claims against it.

Embedded source files:
* `backend_notes/movie_booking_design.py` — in-process seat locks with expiry
  (`Seats.is_locked` / `Seats.lock` / `Seats.unlock`), batch operations
  (`BookingService.lock_seats`, `unlock_seats`, `check_seats_availability`),
  and the booking state (`Bookings.confirm_booking`, `Bookings.cancel_booking`,
  `BookingService.confirm_booking`).
* `backend_system_design/hotel_booking_design.py` — hotel bookings and the
  unconditional `BookingService.cancel_booking`.
* `booking-service/api/v1/routes/booking_seats.py` — the Redis-backed
  `/lock` endpoint.
* `booking-service/services/booking_service.py` together with
  `booking-service/repository/booking_repo.py` — the FastAPI
  `BookingService.create_booking` flow.

Python `datetime.now()` instants are modelled as explicit `now : Nat`
parameters; each embedded operation receives the single instant at which the
whole call runs.  Python dicts keyed by seat id are modelled as association
lists (`SeatMap`).  Fallible HTTP handlers return `Except`.
-/

namespace MovieBooking

/-- One seat of `movie_booking_design.py` (class `Seats`): the lock state a
seat object carries (`locked_by`, `locked_at`, `lock_expires_at`). -/
structure Seats where
  seat_id : String
  locked_by : Option String
  locked_at : Option Nat
  lock_expires_at : Option Nat
  deriving DecidableEq, Repr

/-- `Seats.is_locked`: locked iff `locked_by` is set and, when an expiry is
recorded, the current instant is strictly before it. -/
def Seats.is_locked (s : Seats) (now : Nat) : Bool :=
  match s.locked_by with
  | none => false
  | some _ =>
    match s.lock_expires_at with
    | none => true
    | some e => decide (now < e)

/-- `Seats.lock`: fails iff the seat is locked by a different user; otherwise
records the caller as owner with a fresh expiry `now + dur`. -/
def Seats.lock (s : Seats) (user_id : String) (now dur : Nat) : Bool × Seats :=
  if s.is_locked now && !(s.locked_by == some user_id) then
    (false, s)
  else
    (true, { s with locked_by := some user_id, locked_at := some now,
                    lock_expires_at := some (now + dur) })

/-- `Seats.unlock`: clears the lock only when `locked_by` equals the caller. -/
def Seats.unlock (s : Seats) (user_id : String) : Bool × Seats :=
  if s.locked_by == some user_id then
    (true, { s with locked_by := none, locked_at := none, lock_expires_at := none })
  else
    (false, s)

/-- The `dict[str, Seats]` the service functions operate on, as an
association list keyed by seat id. -/
abbrev SeatMap := List (String × Seats)

/-- Dictionary lookup `seats[seat_id]` (with `seat_id in seats` as
`(find ..).isSome`). -/
def SeatMap.find : SeatMap → String → Option Seats
  | [], _ => none
  | (k, v) :: rest, sid => if k = sid then some v else SeatMap.find rest sid

/-- Dictionary update: replace the value stored under an existing key
(a no-op when the key is absent, matching mutation of a fetched object). -/
def SeatMap.set : SeatMap → String → Seats → SeatMap
  | [], _, _ => []
  | (k, v) :: rest, sid, s =>
    if k = sid then (k, s) :: SeatMap.set rest sid s
    else (k, v) :: SeatMap.set rest sid s

/-- `BookingService.unlock_seats`: unlock each listed seat present in the
map on behalf of `user_id` (result of `Seats.unlock` discarded). -/
def BookingService.unlock_seats (user_id : String) : List String → SeatMap → SeatMap
  | [], seats => seats
  | sid :: rest, seats =>
    match seats.find sid with
    | none => BookingService.unlock_seats user_id rest seats
    | some s => BookingService.unlock_seats user_id rest (seats.set sid (s.unlock user_id).snd)

/-- Loop body of `BookingService.lock_seats`: walk `seats_ids`, accumulating
`locked_seats` and `failed_seats` and updating the seat map on success. -/
def lockSeatsGo (user_id : String) (dur now : Nat) :
    List String → SeatMap → List String → List String →
      List String × List String × SeatMap
  | [], seats, locked, failed => (locked, failed, seats)
  | sid :: rest, seats, locked, failed =>
    match seats.find sid with
    | none => lockSeatsGo user_id dur now rest seats locked (failed ++ [sid])
    | some seat =>
      let r := seat.lock user_id now dur
      if r.fst then
        lockSeatsGo user_id dur now rest (seats.set sid r.snd) (locked ++ [sid]) failed
      else
        lockSeatsGo user_id dur now rest seats locked (failed ++ [sid])

/-- `BookingService.lock_seats`: lock every listed seat for `user_id`; if any
seat fails, unlock all seats locked during this call and report the failed
ids.  Returns `((success, ids), updated seat map)`. -/
def BookingService.lock_seats (dur : Nat) (user_id : String) (seats_ids : List String)
    (seats : SeatMap) (now : Nat) : (Bool × List String) × SeatMap :=
  let r := lockSeatsGo user_id dur now seats_ids seats [] []
  if r.2.1.isEmpty then
    ((true, r.1), r.2.2)
  else
    ((false, r.2.1), BookingService.unlock_seats user_id r.1 r.2.2)

/-- Loop body of `BookingService.check_seats_availability`: collect the seat
ids that are missing from the map or locked by someone other than the
requesting user (any active lock counts when no user is given). -/
def checkSeatsGo (user_id : Option String) (now : Nat) :
    List String → SeatMap → List String → List String
  | [], _, unavailable => unavailable
  | sid :: rest, seats, unavailable =>
    match seats.find sid with
    | none => checkSeatsGo user_id now rest seats (unavailable ++ [sid])
    | some seat =>
      if seat.is_locked now && (user_id.isNone || !(seat.locked_by == user_id)) then
        checkSeatsGo user_id now rest seats (unavailable ++ [sid])
      else
        checkSeatsGo user_id now rest seats unavailable

/-- `BookingService.check_seats_availability`: returns
`(all_available, unavailable_seat_ids)`; reads seat state only, never
mutates it (the seat map is not part of the result). -/
def BookingService.check_seats_availability (seats_ids : List String) (seats : SeatMap)
    (user_id : Option String) (now : Nat) : Bool × List String :=
  let unavailable := checkSeatsGo user_id now seats_ids seats []
  (unavailable.isEmpty, unavailable)

/-- A booking of `movie_booking_design.py` (class `Bookings`): the fields the
confirm/cancel state machine reads and writes. -/
structure Bookings where
  booking_id : String
  user_id : String
  seats_ids : List String
  is_paid : Bool
  confirmed : Bool
  deriving DecidableEq, Repr

/-- `Bookings.confirm_booking`: fails only when already confirmed; otherwise
sets `confirmed` and `is_paid` (seats remain locked). -/
def Bookings.confirm_booking (b : Bookings) : Bool × Bookings :=
  if b.confirmed then (false, b)
  else (true, { b with confirmed := true, is_paid := true })

/-- `Bookings.cancel_booking`: fails when confirmed; otherwise unlocks each of
the booking's seats on behalf of its user and succeeds.  The booking object
itself is not changed (the class records no cancelled state). -/
def Bookings.cancel_booking (b : Bookings) (seats : SeatMap) : Bool × SeatMap :=
  if b.confirmed then (false, seats)
  else (true, BookingService.unlock_seats b.user_id b.seats_ids seats)

/-- The mutable state of `BookingService` (its list of bookings and the
configured lock duration). -/
structure BookingServiceState where
  bookings : List Bookings
  lock_duration_seconds : Nat
  deriving DecidableEq, Repr

/-- `BookingService.get_booking`: first booking with the given id. -/
def BookingServiceState.get_booking (st : BookingServiceState) (booking_id : String) :
    Option Bookings :=
  st.bookings.find? (fun b => b.booking_id == booking_id)

/-- `BookingService.confirm_booking`: look the booking up, check ownership and
delegate to `Bookings.confirm_booking`; the mutated booking object replaces
the stored one.  Returns `((success, error_message), new state)`. -/
def BookingServiceState.confirm_booking (st : BookingServiceState)
    (booking_id user_id : String) : (Bool × Option String) × BookingServiceState :=
  match st.get_booking booking_id with
  | none => ((false, some "Booking not found"), st)
  | some b =>
    if b.user_id ≠ user_id then
      ((false, some "Unauthorized: Booking belongs to another user"), st)
    else
      let r := b.confirm_booking
      ((r.fst, none),
       { st with bookings :=
          st.bookings.map (fun x => if x.booking_id == booking_id then r.snd else x) })

/-- No lock on seat `sid` of the map is attributed to user `u`
(the spec's "not left locked by the calling owner"). -/
def SeatMap.notOwnedBy (m : SeatMap) (u sid : String) : Prop :=
  ∀ s, m.find sid = some s → s.locked_by ≠ some u

/-- Invariant carried by the `failed_seats` accumulator of
`BookingService.lock_seats`: a failed seat id is either absent from the map
or holds an active lock attributed to someone other than the caller. -/
def FailedInv (u : String) (now : Nat) (m : SeatMap) (sid : String) : Prop :=
  m.find sid = none ∨
    ∃ s, m.find sid = some s ∧ s.is_locked now = true ∧ s.locked_by ≠ some u

/-- The per-seat test `check_seats_availability` actually applies: the seat
is missing from the map, or actively locked and not by the requesting user
(any active lock counts when no user is given). -/
def seatUnavailable (seats : SeatMap) (user_id : Option String) (now : Nat)
    (sid : String) : Bool :=
  match seats.find sid with
  | none => true
  | some s => s.is_locked now && (user_id.isNone || !(s.locked_by == user_id))

/-- The spec's notion of "already confirmed-booked in the Booking Record
Store": some confirmed booking in the service's record list contains the
seat.  Stated from the spec's words, to compare against what
`check_seats_availability` computes. -/
def specConfirmedBooked (records : List Bookings) (sid : String) : Bool :=
  records.any (fun b => b.confirmed && b.seats_ids.contains sid)

end MovieBooking

namespace HotelBooking

/-- `BookingStatus` of `hotel_booking_design.py`. -/
inductive BookingStatus where
  | CONFIRMED
  | CANCELED
  deriving DecidableEq, Repr

/-- A hotel booking (class `Booking`): created in status `CONFIRMED`. -/
structure Booking where
  booking_id : String
  room_id : String
  status : BookingStatus
  deriving DecidableEq, Repr

/-- `BookingService.cancel_booking` of `hotel_booking_design.py`: sets the
status to `CANCELED` unconditionally, whatever the current status. -/
def cancel_booking (b : Booking) : Booking :=
  { b with status := BookingStatus.CANCELED }

end HotelBooking

namespace RedisLock

/-- The Redis keyspace used by `booking_seats.py`: each entry is
`(key, value, expiry instant)`; an entry is live while `now < expiry`. -/
structure RedisState where
  entries : List (String × String × Nat)
  deriving DecidableEq, Repr

/-- `redis.set(key, value, ex=ttl)`: plain SET — overwrites any existing
entry under the key and installs a fresh expiry, with no conditional check. -/
def RedisState.redisSet (r : RedisState) (key value : String) (now ttl : Nat) : RedisState :=
  ⟨(key, value, now + ttl) :: r.entries.filter (fun e => !(e.fst == key))⟩

/-- `redis.delete(key)`. -/
def RedisState.redisDel (r : RedisState) (key : String) : RedisState :=
  ⟨r.entries.filter (fun e => !(e.fst == key))⟩

/-- Value stored under a key whose expiry has not passed. -/
def RedisState.getActive (r : RedisState) (key : String) (now : Nat) : Option String :=
  (r.entries.find? (fun e => e.fst == key && decide (now < e.snd.snd))).map (fun e => e.snd.fst)

/-- The owner-qualified key `locked_seat:{showing_id}:{seat_id}:{user_id}`
written by the `/lock` endpoint. -/
def lockKey (showing_id seat_id user_id : String) : String :=
  "locked_seat:" ++ showing_id ++ ":" ++ seat_id ++ ":" ++ user_id

/-- The failure modes the `/lock` endpoint can raise. -/
inductive HttpFailure where
  | unauthorized
  | redisUnavailable
  deriving DecidableEq, Repr

/-- The endpoint's `BookingLockResponse`. -/
structure BookingLockResponse where
  seat_id : String
  showing_id : String
  user_id : String
  deriving DecidableEq, Repr

/-- The `POST /lock` handler `lock_seat` of `booking_seats.py`: after the
auth and Redis-availability guards, when `lock_seat` is true it writes the
owner-qualified key with a 600-second expiry via plain SET and returns 201;
when false it deletes that key.  No lock-contention check exists. -/
def lock_seat (user_id : Option String) (redis : Option RedisState)
    (showing_id seat_id : String) (lockFlag : Bool) (now : Nat) :
    Except HttpFailure (BookingLockResponse × RedisState) :=
  match user_id with
  | none => Except.error HttpFailure.unauthorized
  | some uid =>
    match redis with
    | none => Except.error HttpFailure.redisUnavailable
    | some r =>
      let r2 :=
        if lockFlag then r.redisSet (lockKey showing_id seat_id uid) seat_id now 600
        else r.redisDel (lockKey showing_id seat_id uid)
      Except.ok (⟨seat_id, showing_id, uid⟩, r2)

end RedisLock

namespace BookingApi

/-- The methods `BookingRepository` (booking_repo.py) actually defines. -/
def bookingRepositoryMethods : List String :=
  ["create_booking", "get_if_showing_exists", "get_if_seats_are_already_booked",
   "create_booking_seats", "get_all_bookings"]

/-- The database rows `create_booking` touches: showings as
`(id, expires_at)`, booking rows, and booking-seat rows as
`(seat_id, showing_id)`. -/
structure Db where
  showings : List (String × Nat)
  bookings : List (String × String × Nat × String)
  booking_seats : List (String × String)
  deriving DecidableEq, Repr

/-- The ways the service's `create_booking` can fail: an `HTTPException`, or
a Python `AttributeError` from looking up a method the repository lacks. -/
inductive ServiceError where
  | httpError (code : Nat) (detail : String)
  | attributeError (missing : String)
  deriving DecidableEq, Repr

/-- The attribute lookup `self.repository.get_if_seat_is_locked`:
`BookingRepository` defines no method of that name (see
`bookingRepositoryMethods`), so the lookup yields nothing and the call site
raises `AttributeError`. -/
def repoGetIfSeatIsLocked : Option (Db → String → List String) := none

/-- `BookingService.create_booking` of
`booking-service/services/booking_service.py`: validate the showing, read
the already-booked seats, look up and call the (missing) seat-lock reader,
and only then persist the booking row and its booking-seat rows.  Returns
the outcome together with the database state after the call. -/
def create_booking (db : Db) (showing_id : String) (seats_ids : List String)
    (user_id : String) (total_price : Nat) (now : Nat) :
    Except ServiceError Unit × Db :=
  match db.showings.find? (fun p => p.fst == showing_id && decide (now < p.snd)) with
  | none => (Except.error (ServiceError.httpError 400 "Showing not found or expired"), db)
  | some _ =>
    let existing_bookings :=
      (db.booking_seats.filter
        (fun bs => seats_ids.contains bs.fst && bs.snd == showing_id)).map (fun bs => bs.fst)
    match repoGetIfSeatIsLocked with
    | none => (Except.error (ServiceError.attributeError "get_if_seat_is_locked"), db)
    | some f =>
      let check_if_seat_is_locked := f db showing_id
      if !existing_bookings.isEmpty || !check_if_seat_is_locked.isEmpty then
        (Except.error (ServiceError.httpError 400 "Seats already booked or locked"), db)
      else
        let db2 := { db with
          bookings := db.bookings ++ [(user_id, showing_id, total_price, "confirmed")] }
        let db3 := { db2 with
          booking_seats := db2.booking_seats ++ seats_ids.map (fun sid => (sid, showing_id)) }
        (Except.ok (), db3)

end BookingApi

/-! ## Helper lemmas -/

namespace MovieBooking

theorem SeatMap.find_set (m : SeatMap) (k k' : String) (v : Seats) :
    (m.set k v).find k' = if k' = k then (m.find k).map (fun _ => v) else m.find k' := by
  induction m with
  | nil => simp [SeatMap.set, SeatMap.find]
  | cons hd tl ih =>
    obtain ⟨k2, v2⟩ := hd
    by_cases h2 : k2 = k
    · subst h2
      by_cases h3 : k' = k2
      · subst h3
        simp [SeatMap.set, SeatMap.find]
      · have h4 : ¬ k2 = k' := fun h => h3 h.symm
        simp [SeatMap.set, SeatMap.find, h3, h4, ih]
    · by_cases h3 : k' = k2
      · subst h3
        simp [SeatMap.set, SeatMap.find, h2]
      · have h4 : ¬ k2 = k' := fun h => h3 h.symm
        simp [SeatMap.set, SeatMap.find, h2, h3, h4, ih]

theorem Seats.lock_blocked {s : Seats} {u : String} {t : Nat} (d : Nat)
    (h1 : s.is_locked t = true) (h2 : s.locked_by ≠ some u) :
    s.lock u t d = (false, s) := by
  simp [Seats.lock, h1, h2]

theorem Seats.lock_free {s : Seats} {u : String} {t : Nat} (d : Nat)
    (h : s.is_locked t = false ∨ s.locked_by = some u) :
    s.lock u t d = (true, { s with locked_by := some u, locked_at := some t,
                                   lock_expires_at := some (t + d) }) := by
  rcases h with h | h <;> simp [Seats.lock, h]

theorem Seats.lock_fst_true {s : Seats} {u : String} {t d : Nat}
    (h : (s.lock u t d).fst = true) :
    s.lock u t d = (true, { s with locked_by := some u, locked_at := some t,
                                   lock_expires_at := some (t + d) }) := by
  by_cases hc : (s.is_locked t && !(s.locked_by == some u)) = true
  · exfalso
    unfold Seats.lock at h
    rw [if_pos hc] at h
    simp at h
  · unfold Seats.lock
    rw [if_neg hc]

theorem Seats.lock_fst_false {s : Seats} {u : String} {t d : Nat}
    (h : (s.lock u t d).fst = false) :
    s.is_locked t = true ∧ s.locked_by ≠ some u := by
  by_cases hc : (s.is_locked t && !(s.locked_by == some u)) = true
  · simpa using hc
  · exfalso
    unfold Seats.lock at h
    rw [if_neg hc] at h
    simp at h

theorem Seats.is_locked_of_expired {s : Seats} {e t : Nat}
    (he : s.lock_expires_at = some e) (ht : e ≤ t) : s.is_locked t = false := by
  unfold Seats.is_locked
  cases hl : s.locked_by with
  | none => rfl
  | some o =>
    rw [he]
    simp only [decide_eq_false_iff_not]
    omega

theorem Seats.unlock_owner {s : Seats} {u : String} (h : s.locked_by = some u) :
    s.unlock u = (true, { s with locked_by := none, locked_at := none,
                                 lock_expires_at := none }) := by
  simp [Seats.unlock, h]

theorem Seats.unlock_not_owner {s : Seats} {u : String} (h : s.locked_by ≠ some u) :
    s.unlock u = (false, s) := by
  simp [Seats.unlock, h]

theorem Seats.unlock_snd_not_owner (s : Seats) (u : String) :
    (s.unlock u).snd.locked_by ≠ some u := by
  by_cases h : s.locked_by = some u
  · simp [Seats.unlock, h]
  · simp [Seats.unlock, h]

end MovieBooking

/-! ## Claim theorems -/

namespace MovieBooking

/-- Claim C4.  Single-resource acquire contract of `Seats.lock`: (i) when an
active lock held by a different owner exists the call returns false and
leaves the seat unchanged; (ii) when no such lock exists (seat free,
expired, or self-held) the call returns true and installs/refreshes the
lock with expiry `now + dur`; (iii) re-acquiring a seat just locked by the
same owner succeeds again and extends `expires_at` to the new instant plus
the duration. -/
theorem seats_lock_contract (s : Seats) (u : String) (t d t2 : Nat) :
    (s.is_locked t = true ∧ s.locked_by ≠ some u → s.lock u t d = (false, s)) ∧
    (s.is_locked t = false ∨ s.locked_by = some u →
      s.lock u t d = (true, { s with locked_by := some u, locked_at := some t,
                                     lock_expires_at := some (t + d) })) ∧
    ((s.lock u t d).fst = true →
      ((s.lock u t d).snd.lock u t2 d).fst = true ∧
      ((s.lock u t d).snd.lock u t2 d).snd.lock_expires_at = some (t2 + d)) := by
  refine ⟨fun h => Seats.lock_blocked d h.1 h.2, fun h => Seats.lock_free d h, fun h => ?_⟩
  rw [Seats.lock_fst_true h]
  constructor <;> simp [Seats.lock]

/-- Witness for C4: a seat held by `"ua"` (active at instant 10) blocks
`"ub"`; a free seat is acquired by `"ua"` at instant 5; re-acquiring at
instant 50 succeeds and moves the expiry to 350. -/
theorem seats_lock_contract_witness :
    Seats.lock ⟨"1", some "ua", some 0, some 100⟩ "ub" 10 300 =
      (false, ⟨"1", some "ua", some 0, some 100⟩) ∧
    Seats.lock ⟨"1", none, none, none⟩ "ua" 5 300 =
      (true, ⟨"1", some "ua", some 5, some 305⟩) ∧
    ((Seats.lock ⟨"1", none, none, none⟩ "ua" 5 300).snd.lock "ua" 50 300).fst = true ∧
    ((Seats.lock ⟨"1", none, none, none⟩ "ua" 5 300).snd.lock "ua" 50 300).snd.lock_expires_at =
      some 350 :=
  ⟨(seats_lock_contract ⟨"1", some "ua", some 0, some 100⟩ "ub" 10 300 0).1
      ⟨by decide, by decide⟩,
   (seats_lock_contract ⟨"1", none, none, none⟩ "ua" 5 300 0).2.1 (Or.inl (by decide)),
   (seats_lock_contract ⟨"1", none, none, none⟩ "ua" 5 300 50).2.2 (by decide)⟩

/-- Claim C5.  Expired locks are absent: once a seat's recorded expiry instant has
been reached, `is_locked` reports false and any (in particular a different)
owner's `lock` call succeeds and takes the lock over. -/
theorem expired_lock_absent (s : Seats) (u : String) (e t d : Nat)
    (he : s.lock_expires_at = some e) (ht : e ≤ t) :
    s.is_locked t = false ∧
    (s.lock u t d).fst = true ∧
    (s.lock u t d).snd.locked_by = some u := by
  have h0 := Seats.is_locked_of_expired he ht
  refine ⟨h0, ?_, ?_⟩ <;> simp [Seats.lock_free d (Or.inl h0)]

/-- Witness for C5: a lock that expired at instant 10 is reported unlocked
at instant 100 and is acquired by the different owner `"u2"`. -/
theorem expired_lock_absent_witness :
    Seats.is_locked ⟨"1", some "u1", some 0, some 10⟩ 100 = false ∧
    (Seats.lock ⟨"1", some "u1", some 0, some 10⟩ "u2" 100 300).fst = true ∧
    (Seats.lock ⟨"1", some "u1", some 0, some 10⟩ "u2" 100 300).snd.locked_by = some "u2" :=
  expired_lock_absent ⟨"1", some "u1", some 0, some 10⟩ "u2" 10 100 300 rfl (by decide)

/-- Claim C8.  `Seats.unlock` is owner-guarded: it removes the lock and returns
true exactly when `locked_by` equals the caller; in every other case it
returns false and leaves the seat unchanged. -/
theorem unlock_owner_guard (s : Seats) (u : String) :
    (s.locked_by = some u →
      s.unlock u = (true, { s with locked_by := none, locked_at := none,
                                   lock_expires_at := none })) ∧
    (s.locked_by ≠ some u → s.unlock u = (false, s)) :=
  ⟨fun h => Seats.unlock_owner h, fun h => Seats.unlock_not_owner h⟩

/-- Witness for C8: the holder `"ua"` clears the lock; the non-holder
`"ub"` gets false and the seat is unchanged. -/
theorem unlock_owner_guard_witness :
    Seats.unlock ⟨"1", some "ua", some 0, some 10⟩ "ua" = (true, ⟨"1", none, none, none⟩) ∧
    Seats.unlock ⟨"1", some "ua", some 0, some 10⟩ "ub" =
      (false, ⟨"1", some "ua", some 0, some 10⟩) :=
  ⟨(unlock_owner_guard ⟨"1", some "ua", some 0, some 10⟩ "ua").1 rfl,
   (unlock_owner_guard ⟨"1", some "ua", some 0, some 10⟩ "ub").2 (by decide)⟩

end MovieBooking

namespace MovieBooking

/-- Claim C1 (amended).  Mutual exclusion holds for the in-process implementation
`Seats.lock`: if owner `u1` acquires a seat at instant `t1` with duration
`d1` and, with no intervening release, a different owner `u2` also acquires
it at instant `t2`, then the first lock had already expired
(`t1 + d1 ≤ t2`); while the first lock is active the second call returns
false. -/
theorem seats_lock_mutual_exclusion (s : Seats) (u1 u2 : String) (t1 t2 d1 d2 : Nat)
    (hne : u1 ≠ u2) (h1 : (s.lock u1 t1 d1).fst = true) (hactive : t2 < t1 + d1) :
    ((s.lock u1 t1 d1).snd.lock u2 t2 d2).fst = false := by
  rw [Seats.lock_fst_true h1]
  simp [Seats.lock, Seats.is_locked, hactive, hne]

/-- Witness for C1: `"a"` locks a fresh seat at instant 0 for 5 units;
`"b"`'s attempt at instant 3 (before expiry) fails. -/
theorem seats_lock_mutual_exclusion_witness :
    ((Seats.lock ⟨"1", none, none, none⟩ "a" 0 5).snd.lock "b" 3 5).fst = false :=
  seats_lock_mutual_exclusion ⟨"1", none, none, none⟩ "a" "b" 0 3 5 5
    (by decide) (by decide) (by decide)

end MovieBooking

namespace RedisLock

/-- Counterexample to C1 as stated: in the Redis-backed implementation two
lock-acquire requests by the different owners `"u1"` and `"u2"` for the same
`(showing, seat)` both succeed at the same instant, with no release or
expiry in between; afterwards both owners' lock keys are simultaneously
active.  The second call's input state is exactly the first call's output
state. -/
theorem redis_lock_double_success :
    lock_seat (some "u1") (some ⟨[]⟩) "sh1" "seat1" true 0 =
      Except.ok (⟨"seat1", "sh1", "u1"⟩,
        ⟨[(lockKey "sh1" "seat1" "u1", "seat1", 600)]⟩) ∧
    lock_seat (some "u2") (some ⟨[(lockKey "sh1" "seat1" "u1", "seat1", 600)]⟩)
        "sh1" "seat1" true 0 =
      Except.ok (⟨"seat1", "sh1", "u2"⟩,
        ⟨[(lockKey "sh1" "seat1" "u2", "seat1", 600),
          (lockKey "sh1" "seat1" "u1", "seat1", 600)]⟩) ∧
    RedisState.getActive
      ⟨[(lockKey "sh1" "seat1" "u2", "seat1", 600),
        (lockKey "sh1" "seat1" "u1", "seat1", 600)]⟩
      (lockKey "sh1" "seat1" "u1") 0 = some "seat1" ∧
    RedisState.getActive
      ⟨[(lockKey "sh1" "seat1" "u2", "seat1", 600),
        (lockKey "sh1" "seat1" "u1", "seat1", 600)]⟩
      (lockKey "sh1" "seat1" "u2") 0 = some "seat1" := by
  exact ⟨rfl, by rfl, by decide, by decide⟩

/-- Claim C10.  The Redis `/lock` endpoint never reports contention: for every
authenticated request with Redis available and `lock_seat = true`, the
handler succeeds unconditionally — whatever the current Redis state, in
particular when other owners' lock keys for the same seat are active — and
the resulting state stores the owner-qualified key with a 600-second
expiry. -/
theorem lock_endpoint_unconditional (uid : String) (r : RedisState)
    (showing_id seat_id : String) (now : Nat) :
    lock_seat (some uid) (some r) showing_id seat_id true now =
      Except.ok (⟨seat_id, showing_id, uid⟩,
        r.redisSet (lockKey showing_id seat_id uid) seat_id now 600) ∧
    RedisState.getActive (r.redisSet (lockKey showing_id seat_id uid) seat_id now 600)
      (lockKey showing_id seat_id uid) now = some seat_id := by
  constructor
  · rfl
  · simp [RedisState.redisSet, RedisState.getActive, List.find?]

end RedisLock

namespace MovieBooking

theorem notOwnedBy_unlock_seats_preserve (u : String) (ids : List String) (m : SeatMap)
    (sid : String) (h : m.notOwnedBy u sid) :
    (BookingService.unlock_seats u ids m).notOwnedBy u sid := by
  induction ids generalizing m with
  | nil => exact h
  | cons id0 rest ih =>
    unfold BookingService.unlock_seats
    cases hf : m.find id0 with
    | none => exact ih m h
    | some s =>
      apply ih
      intro s2 hs2
      rw [SeatMap.find_set] at hs2
      by_cases hsid : sid = id0
      · rw [if_pos hsid] at hs2
        subst hsid
        rw [hf] at hs2
        simp only [Option.map_some'] at hs2
        cases hs2
        exact Seats.unlock_snd_not_owner s u
      · rw [if_neg hsid] at hs2
        exact h s2 hs2

theorem notOwnedBy_unlock_seats_mem (u : String) (ids : List String) (m : SeatMap)
    (sid : String) (h : sid ∈ ids) :
    (BookingService.unlock_seats u ids m).notOwnedBy u sid := by
  induction ids generalizing m with
  | nil => cases h
  | cons id0 rest ih =>
    unfold BookingService.unlock_seats
    rcases List.mem_cons.mp h with rfl | hmem
    · cases hf : m.find sid with
      | none =>
        apply notOwnedBy_unlock_seats_preserve
        intro s2 hs2
        rw [hf] at hs2
        cases hs2
      | some s =>
        apply notOwnedBy_unlock_seats_preserve
        intro s2 hs2
        rw [SeatMap.find_set, if_pos rfl, hf] at hs2
        simp only [Option.map_some'] at hs2
        cases hs2
        exact Seats.unlock_snd_not_owner s u
    · cases hf : m.find id0 with
      | none => exact ih m hmem
      | some s => exact ih _ hmem

end MovieBooking

namespace HotelBooking

/-- Counterexample to C6 as stated: in the hotel implementation
(`hotel_booking_design.py`, `BookingService.cancel_booking`), cancelling an
already-`CONFIRMED` booking is not rejected — the call unconditionally
rewrites the status to `CANCELED`, changing the booking's state. -/
theorem hotel_cancel_confirmed_cex :
    cancel_booking ⟨"hb1", "r1", BookingStatus.CONFIRMED⟩ =
      ⟨"hb1", "r1", BookingStatus.CANCELED⟩ ∧
    (cancel_booking ⟨"hb1", "r1", BookingStatus.CONFIRMED⟩).status ≠
      BookingStatus.CONFIRMED := by
  decide

end HotelBooking

namespace MovieBooking

/-- Claim C6 (amended).  In the movie implementation, `Bookings.cancel_booking` on
an unconfirmed booking returns success and unlocks every one of the
booking's seats held by its user, leaving none of its seats locked by that
user; on an already-confirmed booking it returns false and leaves the seat
map unchanged.  No explicit `Cancelled` state is recorded, and the hotel
implementation's cancel instead rewrites even a confirmed booking to
`CANCELED`. -/
theorem cancel_booking_contract (b : Bookings) (seats : SeatMap) :
    (b.confirmed = true → b.cancel_booking seats = (false, seats)) ∧
    (b.confirmed = false →
      (b.cancel_booking seats).fst = true ∧
      (b.cancel_booking seats).snd =
        BookingService.unlock_seats b.user_id b.seats_ids seats ∧
      ∀ sid, sid ∈ b.seats_ids →
        ((b.cancel_booking seats).snd).notOwnedBy b.user_id sid) := by
  constructor
  · intro h
    simp [Bookings.cancel_booking, h]
  · intro h
    refine ⟨by simp [Bookings.cancel_booking, h], by simp [Bookings.cancel_booking, h], ?_⟩
    intro sid hsid
    simp only [Bookings.cancel_booking, h, Bool.false_eq_true, if_false]
    exact notOwnedBy_unlock_seats_mem _ _ _ _ hsid

/-- Witness for C6: cancelling the confirmed booking `"b2"` fails and
changes nothing; cancelling the pending booking `"b1"` succeeds and leaves
its seat `"1"` no longer locked by `"u1"`. -/
theorem cancel_booking_contract_witness :
    Bookings.cancel_booking ⟨"b2", "u1", ["1"], true, true⟩
        [("1", ⟨"1", some "u1", some 0, some 300⟩)] =
      (false, [("1", ⟨"1", some "u1", some 0, some 300⟩)]) ∧
    (Bookings.cancel_booking ⟨"b1", "u1", ["1"], false, false⟩
        [("1", ⟨"1", some "u1", some 0, some 300⟩)]).fst = true ∧
    ((Bookings.cancel_booking ⟨"b1", "u1", ["1"], false, false⟩
        [("1", ⟨"1", some "u1", some 0, some 300⟩)]).snd).notOwnedBy "u1" "1" :=
  ⟨(cancel_booking_contract ⟨"b2", "u1", ["1"], true, true⟩
      [("1", ⟨"1", some "u1", some 0, some 300⟩)]).1 rfl,
   ((cancel_booking_contract ⟨"b1", "u1", ["1"], false, false⟩
      [("1", ⟨"1", some "u1", some 0, some 300⟩)]).2 rfl).1,
   ((cancel_booking_contract ⟨"b1", "u1", ["1"], false, false⟩
      [("1", ⟨"1", some "u1", some 0, some 300⟩)]).2 rfl).2.2 "1" (by decide)⟩

end MovieBooking

namespace MovieBooking

/-- Counterexample to C3 as stated: booking `"b1"` holds seat `"1"` whose
lock (held by the booking's owner `"u1"`) expired at instant 10; at instant
100 `BookingService.confirm_booking` nevertheless returns success — no
`LockExpired` error, no `Failed` transition — and persists the booking as
confirmed and paid.  The confirm path never reads any seat-lock state. -/
theorem confirm_ignores_expired_locks_cex :
    Seats.is_locked ⟨"1", some "u1", some 0, some 10⟩ 100 = false ∧
    (BookingServiceState.confirm_booking
        ⟨[⟨"b1", "u1", ["1"], false, false⟩], 300⟩ "b1" "u1").fst = (true, none) ∧
    (BookingServiceState.confirm_booking
        ⟨[⟨"b1", "u1", ["1"], false, false⟩], 300⟩ "b1" "u1").snd =
      ⟨[⟨"b1", "u1", ["1"], true, true⟩], 300⟩ := by
  decide

/-- Claim C3 (amended).  `BookingService.confirm_booking` performs no lock
re-verification: whenever the booking exists, belongs to the caller and is
not yet confirmed, the call returns success and stores the booking as
confirmed and paid — regardless of the expiry state of any seat lock (the
function does not consult seat state at all).  Its only failure modes are
unknown booking id, a different owner, and an already-confirmed booking. -/
theorem confirm_booking_no_lock_check (st : BookingServiceState) (bid uid : String)
    (b : Bookings) (hb : st.get_booking bid = some b) (hu : b.user_id = uid)
    (hc : b.confirmed = false) :
    st.confirm_booking bid uid =
      ((true, none),
       ⟨st.bookings.map (fun x => if x.booking_id == bid then
           { b with confirmed := true, is_paid := true } else x),
        st.lock_duration_seconds⟩) := by
  unfold BookingServiceState.confirm_booking
  rw [hb]
  simp [hu, Bookings.confirm_booking, hc]

/-- Witness for C3: confirming the pending booking `"b2"` owned by `"u1"`
succeeds and stores it confirmed. -/
theorem confirm_booking_no_lock_check_witness :
    BookingServiceState.confirm_booking
        ⟨[⟨"b2", "u1", ["7"], false, false⟩], 300⟩ "b2" "u1" =
      ((true, none), ⟨[⟨"b2", "u1", ["7"], true, true⟩], 300⟩) :=
  (confirm_booking_no_lock_check ⟨[⟨"b2", "u1", ["7"], false, false⟩], 300⟩
      "b2" "u1" ⟨"b2", "u1", ["7"], false, false⟩ (by decide) rfl rfl).trans (by decide)

end MovieBooking

namespace BookingApi

/-- Claim C9.  The FastAPI `BookingService.create_booking` can never succeed: for
every database state whose showing lookup succeeds (showing exists and is
not expired), the call reaches the attribute lookup of
`get_if_seat_is_locked` — a method `BookingRepository` does not define — and
raises `AttributeError` with the database unchanged, so no `Booking` or
`BookingSeat` row is ever created. -/
theorem create_booking_raises_attribute_error (db : Db) (showing_id : String)
    (seats_ids : List String) (user_id : String) (total_price now : Nat)
    (h : (db.showings.find?
        (fun p => p.fst == showing_id && decide (now < p.snd))).isSome = true) :
    create_booking db showing_id seats_ids user_id total_price now =
      (Except.error (ServiceError.attributeError "get_if_seat_is_locked"), db) ∧
    "get_if_seat_is_locked" ∉ bookingRepositoryMethods := by
  constructor
  · unfold create_booking
    obtain ⟨p, hp⟩ := Option.isSome_iff_exists.mp h
    rw [hp]
    rfl
  · decide

/-- Witness for C9: a database with one unexpired showing `"sh"`, an empty
booking table and an empty booking-seat table; `create_booking` raises the
`AttributeError` and leaves the database unchanged. -/
theorem create_booking_raises_attribute_error_witness :
    create_booking ⟨[("sh", 100)], [], []⟩ "sh" ["a"] "u" 5 0 =
      (Except.error (ServiceError.attributeError "get_if_seat_is_locked"),
       ⟨[("sh", 100)], [], []⟩) ∧
    "get_if_seat_is_locked" ∉ bookingRepositoryMethods :=
  create_booking_raises_attribute_error ⟨[("sh", 100)], [], []⟩ "sh" ["a"] "u" 5 0
    (by decide)

end BookingApi

namespace MovieBooking

theorem checkSeatsGo_cons (u : Option String) (now : Nat) (id0 : String)
    (rest : List String) (m : SeatMap) (acc : List String) :
    checkSeatsGo u now (id0 :: rest) m acc =
      checkSeatsGo u now rest m
        (if seatUnavailable m u now id0 then acc ++ [id0] else acc) := by
  cases hf : m.find id0 with
  | none =>
    simp only [checkSeatsGo, seatUnavailable, hf]
    simp
  | some s =>
    by_cases hc : (s.is_locked now && (u.isNone || !(s.locked_by == u))) = true
    · simp only [checkSeatsGo, seatUnavailable, hf]
      simp [hc]
    · simp only [checkSeatsGo, seatUnavailable, hf]
      simp [hc]

theorem checkSeatsGo_mem (u : Option String) (now : Nat) (ids : List String)
    (m : SeatMap) (acc : List String) (sid : String) :
    sid ∈ checkSeatsGo u now ids m acc ↔
      sid ∈ acc ∨ (sid ∈ ids ∧ seatUnavailable m u now sid = true) := by
  induction ids generalizing acc with
  | nil => simp [checkSeatsGo]
  | cons id0 rest ih =>
    rw [checkSeatsGo_cons]
    by_cases hb : seatUnavailable m u now id0 = true
    · rw [if_pos hb, ih]
      by_cases hsid : sid = id0
      · subst hsid
        simp [hb]
      · simp [hsid]
    · rw [if_neg hb, ih]
      by_cases hsid : sid = id0
      · subst hsid
        simp [Bool.not_eq_true] at hb
        simp [hb]
      · simp [hsid]

/-- Counterexample to C7 as stated: seat `"1"` is recorded as
confirmed-booked (booking `"b1"` is confirmed and contains it) and its lock
has expired at instant 100, so the seat is neither free nor resellable; yet
`check_seats_availability` reports it available to the different user
`"u2"` — the function performs only the lock check and never consults the
booking records. -/
theorem check_availability_ignores_bookings_cex :
    specConfirmedBooked [⟨"b1", "u1", ["1"], true, true⟩] "1" = true ∧
    Seats.is_locked ⟨"1", some "u1", some 0, some 10⟩ 100 = false ∧
    BookingService.check_seats_availability ["1"]
      [("1", ⟨"1", some "u1", some 0, some 10⟩)] (some "u2") 100 = (true, []) := by
  decide

/-- Claim C7 (amended).  `check_seats_availability` is a pure read (it returns
only the availability verdict, never a changed seat map) and marks a seat
unavailable exactly when it is missing from the seat map or carries an
active lock attributed to someone other than the requesting user (any
active lock when no user is given); it performs no confirmed-booking check.
The overall flag is true exactly when the unavailable list is empty. -/
theorem check_availability_characterization (seats_ids : List String) (seats : SeatMap)
    (user_id : Option String) (now : Nat) :
    (∀ sid, sid ∈ (BookingService.check_seats_availability seats_ids seats user_id now).snd ↔
        sid ∈ seats_ids ∧ seatUnavailable seats user_id now sid = true) ∧
    (BookingService.check_seats_availability seats_ids seats user_id now).fst =
      ((BookingService.check_seats_availability seats_ids seats user_id now).snd).isEmpty := by
  constructor
  · intro sid
    unfold BookingService.check_seats_availability
    simpa using checkSeatsGo_mem user_id now seats_ids seats [] sid
  · rfl

end MovieBooking

namespace MovieBooking

theorem lockSeatsGo_cons_none {m : SeatMap} {id0 : String} (u : String) (dur now : Nat)
    (rest : List String) (locked failed : List String) (hfind : m.find id0 = none) :
    lockSeatsGo u dur now (id0 :: rest) m locked failed =
      lockSeatsGo u dur now rest m locked (failed ++ [id0]) := by
  simp only [lockSeatsGo, hfind]

theorem lockSeatsGo_cons_some_true {m : SeatMap} {id0 : String} {s : Seats}
    {u : String} {dur now : Nat} (rest : List String) (locked failed : List String)
    (hfind : m.find id0 = some s) (hr : (s.lock u now dur).fst = true) :
    lockSeatsGo u dur now (id0 :: rest) m locked failed =
      lockSeatsGo u dur now rest (m.set id0 (s.lock u now dur).snd)
        (locked ++ [id0]) failed := by
  simp only [lockSeatsGo, hfind]
  rw [if_pos hr]

theorem lockSeatsGo_cons_some_false {m : SeatMap} {id0 : String} {s : Seats}
    {u : String} {dur now : Nat} (rest : List String) (locked failed : List String)
    (hfind : m.find id0 = some s) (hr : (s.lock u now dur).fst = false) :
    lockSeatsGo u dur now (id0 :: rest) m locked failed =
      lockSeatsGo u dur now rest m locked (failed ++ [id0]) := by
  simp only [lockSeatsGo, hfind]
  rw [if_neg (by simp [hr])]

theorem lockSeatsGo_spec (u : String) (dur now : Nat) (ids : List String) :
    ∀ (m : SeatMap) (locked failed : List String),
    (∀ sid ∈ failed, FailedInv u now m sid) →
    (∀ sid ∈ (lockSeatsGo u dur now ids m locked failed).2.1,
        FailedInv u now (lockSeatsGo u dur now ids m locked failed).2.2 sid) ∧
    (∀ sid ∈ ids, sid ∈ (lockSeatsGo u dur now ids m locked failed).1 ∨
        sid ∈ (lockSeatsGo u dur now ids m locked failed).2.1) ∧
    (∀ sid ∈ locked, sid ∈ (lockSeatsGo u dur now ids m locked failed).1) ∧
    (∀ sid ∈ failed, sid ∈ (lockSeatsGo u dur now ids m locked failed).2.1) := by
  induction ids with
  | nil =>
    intro m locked failed hf
    exact ⟨hf, by simp, fun sid h => h, fun sid h => h⟩
  | cons id0 rest ih =>
    intro m locked failed hf
    cases hfind : m.find id0 with
    | none =>
      have hinv : ∀ sid ∈ failed ++ [id0], FailedInv u now m sid := by
        intro sid hs
        rcases List.mem_append.mp hs with hs | hs
        · exact hf sid hs
        · rcases List.mem_singleton.mp hs with rfl
          exact Or.inl hfind
      have H := ih m locked (failed ++ [id0]) hinv
      rw [lockSeatsGo_cons_none u dur now rest locked failed hfind]
      refine ⟨H.1, ?_, H.2.2.1, fun sid hs => H.2.2.2 sid (List.mem_append_left _ hs)⟩
      intro sid hs
      rcases List.mem_cons.mp hs with rfl | hs
      · exact Or.inr (H.2.2.2 sid (by simp))
      · exact H.2.1 sid hs
    | some s =>
      by_cases hr : (s.lock u now dur).fst = true
      · have hinv2 : ∀ sid ∈ failed,
            FailedInv u now (m.set id0 (s.lock u now dur).snd) sid := by
          intro sid hs
          rcases hf sid hs with h0 | ⟨s', hs', hl', ho'⟩
          · left
            rw [SeatMap.find_set]
            by_cases hsid : sid = id0
            · exfalso
              subst hsid
              rw [hfind] at h0
              simp at h0
            · rw [if_neg hsid]
              exact h0
          · by_cases hsid : sid = id0
            · exfalso
              subst hsid
              rw [hfind] at hs'
              injection hs' with hss
              subst hss
              rw [Seats.lock_blocked dur hl' ho'] at hr
              simp at hr
            · right
              refine ⟨s', ?_, hl', ho'⟩
              rw [SeatMap.find_set, if_neg hsid]
              exact hs'
        have H := ih (m.set id0 (s.lock u now dur).snd) (locked ++ [id0]) failed hinv2
        rw [lockSeatsGo_cons_some_true rest locked failed hfind hr]
        refine ⟨H.1, ?_, fun sid hs => H.2.2.1 sid (List.mem_append_left _ hs), H.2.2.2⟩
        intro sid hs
        rcases List.mem_cons.mp hs with rfl | hs
        · exact Or.inl (H.2.2.1 sid (by simp))
        · exact H.2.1 sid hs
      · have hbool : (s.lock u now dur).fst = false := by
          cases h : (s.lock u now dur).fst
          · rfl
          · exact absurd h hr
        have hcond := Seats.lock_fst_false hbool
        have hinv : ∀ sid ∈ failed ++ [id0], FailedInv u now m sid := by
          intro sid hs
          rcases List.mem_append.mp hs with hs | hs
          · exact hf sid hs
          · rcases List.mem_singleton.mp hs with rfl
            exact Or.inr ⟨s, hfind, hcond.1, hcond.2⟩
        have H := ih m locked (failed ++ [id0]) hinv
        rw [lockSeatsGo_cons_some_false rest locked failed hfind hbool]
        refine ⟨H.1, ?_, H.2.2.1, fun sid hs => H.2.2.2 sid (List.mem_append_left _ hs)⟩
        intro sid hs
        rcases List.mem_cons.mp hs with rfl | hs
        · exact Or.inr (H.2.2.2 sid (by simp))
        · exact H.2.1 sid hs

/-- Claim C2.  Atomic batch acquire is all-or-nothing: whenever
`BookingService.lock_seats` returns false, every seat it acquired during
the call has been released again before returning, so afterwards no seat id
of the requested batch is left locked by the calling owner. -/
theorem lock_seats_all_or_nothing (dur : Nat) (u : String) (seats_ids : List String)
    (seats : SeatMap) (now : Nat)
    (hfail : (BookingService.lock_seats dur u seats_ids seats now).fst.fst = false) :
    ∀ sid ∈ seats_ids,
      ((BookingService.lock_seats dur u seats_ids seats now).snd).notOwnedBy u sid := by
  intro sid hsid
  have H := lockSeatsGo_spec u dur now seats_ids seats [] [] (by intro x hx; cases hx)
  by_cases he : (lockSeatsGo u dur now seats_ids seats [] []).2.1.isEmpty = true
  · exfalso
    simp only [BookingService.lock_seats] at hfail
    rw [if_pos he] at hfail
    simp at hfail
  · simp only [BookingService.lock_seats]
    rw [if_neg he]
    rcases H.2.1 sid hsid with hmem | hmem
    · exact notOwnedBy_unlock_seats_mem u _ _ sid hmem
    · apply notOwnedBy_unlock_seats_preserve
      intro s2 hs2
      rcases H.1 sid hmem with h0 | ⟨s', hs', hl', ho'⟩
      · rw [h0] at hs2
        simp at hs2
      · rw [hs'] at hs2
        injection hs2 with h
        subst h
        exact ho'

/-- Witness for C2: user `"u1"` requests seats `"1"` (free) and `"2"`
(actively held by `"u2"`); the batch fails and seat `"1"`, although locked
mid-call, is not left locked by `"u1"`. -/
theorem lock_seats_all_or_nothing_witness :
    ((BookingService.lock_seats 300 "u1" ["1", "2"]
        [("1", ⟨"1", none, none, none⟩), ("2", ⟨"2", some "u2", some 0, some 100⟩)]
        10).snd).notOwnedBy "u1" "1" :=
  lock_seats_all_or_nothing 300 "u1" ["1", "2"]
    [("1", ⟨"1", none, none, none⟩), ("2", ⟨"2", some "u2", some 0, some 100⟩)] 10
    (by decide) "1" (by decide)

end MovieBooking
